import Mathlib

set_option maxHeartbeats 1000000

namespace ProductApi

/-- A JSON value that may appear in a request body field: a number, a string,
or a boolean.  Numbers are modelled as integers (every numeric literal in the
repository and its tests is an integer). -/
inductive Value
  | num (n : Int)
  | str (s : String)
  | bool (b : Bool)
deriving Repr, DecidableEq

/-- JavaScript string coercion applied by express-validator before running a
string-based check: a missing field behaves as the empty string, numbers and
booleans are stringified. -/
def jsToString : Option Value → String
  | none => ""
  | some (Value.num n) => toString n
  | some (Value.str s) => s
  | some (Value.bool b) => if b then "true" else "false"

/-- Decimal parse of a digit list, accumulator style; fails on the first
non-digit character. -/
def natOfDigits : List Char → Nat → Option Nat
  | [], acc => some acc
  | c :: rest, acc =>
      if c.isDigit then natOfDigits rest (10 * acc + (c.toNat - 48)) else none

/-- Integer parse of a string, the shape accepted by the `isInt` check: an
optional sign followed by at least one decimal digit. -/
def strToInt? (s : String) : Option Int :=
  match s.data with
  | [] => none
  | '-' :: rest =>
      if rest.isEmpty then none
      else (natOfDigits rest 0).map (fun n => -(n : Int))
  | '+' :: rest =>
      if rest.isEmpty then none
      else (natOfDigits rest 0).map (fun n => (n : Int))
  | cs => (natOfDigits cs 0).map (fun n => (n : Int))

/-- Numeric reading of a body value: a number is itself, a string is parsed
as an integer, anything else (missing, boolean) is not numeric. -/
def parseNum : Option Value → Option Int
  | some (Value.num n) => some n
  | some (Value.str s) => strToInt? s
  | _ => none

/-- The numeric value actually stored for a validated price (defaults to 0,
but validation guarantees the parse succeeds before it is used). -/
def parsedPrice (v : Option Value) : Int := (parseNum v).getD 0

/-- `.notEmpty()`: the stringified value is not empty. -/
def notEmptyV (v : Option Value) : Bool := jsToString v != ""

/-- `.isNumeric()`: the value reads as a number. -/
def isNumericV (v : Option Value) : Bool := (parseNum v).isSome

/-- `.custom(value => value > 0)` under JavaScript comparison semantics:
a number compares directly, a numeric string is coerced, a non-numeric
string or a missing value compares false, `true` coerces to 1. -/
def jsGtZero : Option Value → Bool
  | none => false
  | some (Value.num n) => decide (0 < n)
  | some (Value.str s) =>
      match strToInt? s with
      | some n => decide (0 < n)
      | none => false
  | some (Value.bool b) => b

/-- `.isBoolean()`: the stringified value is one of the four accepted
boolean literals. -/
def isBooleanV (v : Option Value) : Bool :=
  let s := jsToString v
  s == "true" || s == "false" || s == "0" || s == "1"

/-- Boolean reading of a validated availability value. -/
def parsedBool (v : Option Value) : Bool :=
  let s := jsToString v
  s == "true" || s == "1"

/-- One express-validator error record: the field path and the message
attached with `.withMessage`. -/
structure FieldError where
  path : String
  msg : String
deriving Repr, DecidableEq

/-- A request body as the routes read it: the three fields the API ever
looks at, each possibly absent. -/
structure Body where
  name : Option Value
  price : Option Value
  availability : Option Value
deriving Repr, DecidableEq

/-- One declared check: contributes no error when the predicate holds and
one `{path, msg}` record when it fails. -/
def checkThat (ok : Bool) (path msg : String) : List FieldError :=
  if ok then [] else [⟨path, msg⟩]

/-- `body('name').notEmpty().withMessage(...)` from src/router.ts. -/
def nameChecks (b : Body) : List FieldError :=
  checkThat (notEmptyV b.name) "name" "The name can\x27t be empty"

/-- The three chained checks on `body('price')` from src/router.ts:
isNumeric, notEmpty, and the custom greater-than-zero rule, in declaration
order. -/
def priceChecks (b : Body) : List FieldError :=
  checkThat (isNumericV b.price) "price" "Number not valid" ++
  checkThat (notEmptyV b.price) "price" "The price can\x27t be empty" ++
  checkThat (jsGtZero b.price) "price" "The price must be greater than 0"

/-- `param('id').isInt().withMessage(msg)`: the path segment must parse as
an integer. -/
def idCheck (s : String) (msg : String) : List FieldError :=
  checkThat (strToInt? s).isSome "id" msg

/-- Validation chain of `POST /` in src/router.ts (lines 119-127). -/
def createValidation (b : Body) : List FieldError :=
  nameChecks b ++ priceChecks b

/-- Validation chain of `GET /:id` in src/router.ts (line 82). -/
def getByIdValidation (s : String) : List FieldError :=
  idCheck s "ID invalid"

/-- Validation chain of `PUT /:id` in src/router.ts (lines 174-182). -/
def putValidation (s : String) (b : Body) : List FieldError :=
  idCheck s "Invalid ID" ++ nameChecks b ++ priceChecks b ++
  checkThat (isBooleanV b.availability) "availability" "Value for availability not valid"

/-- Validation chain of `PATCH /:id` in src/router.ts (line 216). -/
def patchValidation (s : String) : List FieldError :=
  idCheck s "Invalid ID"

/-- Validation chain of `DELETE /:id` in src/router.ts (line 252). -/
def deleteValidation (s : String) : List FieldError :=
  idCheck s "Invalid ID"

/-- One stored Product row. -/
structure Product where
  id : Nat
  name : String
  price : Int
  availability : Bool
deriving Repr, DecidableEq

/-- The backing table together with the auto-increment counter of the
surrogate primary key. -/
structure DB where
  nextId : Nat
  rows : List Product
deriving Repr, DecidableEq

/-- The empty freshly synced database. -/
def initDB : DB := ⟨1, []⟩

/-- `Product.findByPk(id)`: first row carrying the id. -/
def findById (st : DB) (id : Nat) : Option Product :=
  st.rows.find? (fun p => p.id == id)

/-- The JSON responses the handlers produce, tagged with enough structure
to read off the status code and the envelope (`data`, `errors`, `error`). -/
inductive ApiResponse
  | data (status : Nat) (p : Product)
  | dataList (ps : List Product)
  | dataMsg (msg : String)
  | errors (errs : List FieldError)
  | notFound (msg : String)
deriving Repr, DecidableEq

/-- Status code of a response: `dataMsg` and `dataList` are the 200-family
success envelopes, `errors` is always 400, `notFound` always 404. -/
def statusOf : ApiResponse → Nat
  | ApiResponse.data s _ => s
  | ApiResponse.dataList _ => 200
  | ApiResponse.dataMsg _ => 200
  | ApiResponse.errors _ => 400
  | ApiResponse.notFound _ => 404

/-- The integer the handler reads from a validated `:id` path parameter. -/
def paramId (s : String) : Nat := ((strToInt? s).getD 0).toNat

/-- Modelled from the spec: middleware `handleInputErrors` from
src/middleware (absent from src/) — collects the failed checks; if the list
is non-empty it rejects with 400 and the `{errors}` body and the handler
never executes, otherwise control passes to the handler unchanged. -/
def handleInputErrors (errs : List FieldError) (st : DB)
    (next : ApiResponse × DB) : ApiResponse × DB :=
  if errs.isEmpty then next else (ApiResponse.errors errs, st)

/-- Modelled from the spec: handler `getProduct` from src/handlers/product
(absent from src/) — returns the full table. -/
def getProduct (st : DB) : ApiResponse × DB :=
  (ApiResponse.dataList st.rows, st)

/-- Modelled from the spec: handler `getProductById` from
src/handlers/product (absent from src/) — 200 with the row, or 404 with
`error = "Product not founded"`. -/
def getProductById (st : DB) (id : Nat) : ApiResponse × DB :=
  match findById st id with
  | some p => (ApiResponse.data 200 p, st)
  | none => (ApiResponse.notFound "Product not founded", st)

/-- Modelled from the spec: handler `createProduct` from
src/handlers/product (absent from src/) — stores a new row with the next
auto-assigned id, the validated name and price, and availability defaulted
to true; answers 201 with the row. -/
def createProduct (st : DB) (b : Body) : ApiResponse × DB :=
  let p : Product := ⟨st.nextId, jsToString b.name, parsedPrice b.price, true⟩
  (ApiResponse.data 201 p, ⟨st.nextId + 1, st.rows ++ [p]⟩)

/-- Modelled from the spec: handler `updateProduct` from
src/handlers/product (absent from src/) — 404 when the id has no row,
otherwise replaces all mutable fields of the row and answers 200 with it. -/
def updateProduct (st : DB) (id : Nat) (b : Body) : ApiResponse × DB :=
  match findById st id with
  | none => (ApiResponse.notFound "Product not founded", st)
  | some p =>
      let p2 : Product :=
        ⟨p.id, jsToString b.name, parsedPrice b.price, parsedBool b.availability⟩
      (ApiResponse.data 200 p2,
        ⟨st.nextId, st.rows.map (fun q => if q.id == id then p2 else q)⟩)

/-- Modelled from the spec: handler `updateAvailability` from
src/handlers/product (absent from src/) — 404 when the id has no row,
otherwise toggles the row's availability to its logical negation and
answers 200 with the updated row. -/
def updateAvailability (st : DB) (id : Nat) : ApiResponse × DB :=
  match findById st id with
  | none => (ApiResponse.notFound "Product not founded", st)
  | some p =>
      (ApiResponse.data 200 ⟨p.id, p.name, p.price, !p.availability⟩,
        ⟨st.nextId,
          st.rows.map (fun q =>
            if q.id == id then ⟨q.id, q.name, q.price, !q.availability⟩ else q)⟩)

/-- Modelled from the spec: handler `deleteProduct` from
src/handlers/product (absent from src/) — 404 when the id has no row,
otherwise removes it permanently and answers 200 with
`data = "Product deleted"`. -/
def deleteProduct (st : DB) (id : Nat) : ApiResponse × DB :=
  match findById st id with
  | none => (ApiResponse.notFound "Product not founded", st)
  | some _ =>
      (ApiResponse.dataMsg "Product deleted",
        ⟨st.nextId, st.rows.filter (fun q => q.id != id)⟩)

/-- `GET /` as wired in src/router.ts line 51. -/
def routeList (st : DB) : ApiResponse × DB :=
  getProduct st

/-- `GET /:id` as wired in src/router.ts lines 81-85. -/
def routeGetById (st : DB) (s : String) : ApiResponse × DB :=
  handleInputErrors (getByIdValidation s) st (getProductById st (paramId s))

/-- `POST /` as wired in src/router.ts lines 119-127. -/
def routePost (st : DB) (b : Body) : ApiResponse × DB :=
  handleInputErrors (createValidation b) st (createProduct st b)

/-- `PUT /:id` as wired in src/router.ts lines 174-185. -/
def routePut (st : DB) (s : String) (b : Body) : ApiResponse × DB :=
  handleInputErrors (putValidation s b) st (updateProduct st (paramId s) b)

/-- `PATCH /:id` as wired in src/router.ts lines 215-219. -/
def routePatch (st : DB) (s : String) : ApiResponse × DB :=
  handleInputErrors (patchValidation s) st (updateAvailability st (paramId s))

/-- `DELETE /:id` as wired in src/router.ts lines 251-255. -/
def routeDelete (st : DB) (s : String) : ApiResponse × DB :=
  handleInputErrors (deleteValidation s) st (deleteProduct st (paramId s))

/-- The row-level invariant of the data model: strictly positive price and
a non-empty name. -/
def ProductOk (p : Product) : Prop := 0 < p.price ∧ p.name ≠ ""

/-- The table-level invariant: every stored row satisfies `ProductOk`. -/
def Inv (st : DB) : Prop := ∀ p ∈ st.rows, ProductOk p

/-- States reachable from the empty database through the mutating routes
(create, full update, patch availability, delete) with arbitrary inputs. -/
inductive Reachable : DB → Prop
  | init : Reachable initDB
  | post (st : DB) (b : Body) : Reachable st → Reachable (routePost st b).2
  | put (st : DB) (s : String) (b : Body) : Reachable st → Reachable (routePut st s b).2
  | patch (st : DB) (s : String) : Reachable st → Reachable (routePatch st s).2
  | del (st : DB) (s : String) : Reachable st → Reachable (routeDelete st s).2

/-- A request body with all three fields absent. -/
def emptyBody : Body := ⟨none, none, none⟩

/-- The valid create body exercised by the repository's tests. -/
def mouseBody : Body := ⟨some (Value.str "Mouse - Testing"), some (Value.num 50), none⟩

/-- A sample stored row used to exercise the row-level operations. -/
def row1 : Product := ⟨1, "Licuadora", 300, true⟩

/-- A one-row database used to exercise the row-level operations. -/
def oneRowDB : DB := ⟨2, [row1]⟩

/-- The per-row effect of the patch handler: the matching row gets its
availability negated, every other row is untouched. -/
def toggleIf (idv : Nat) (q : Product) : Product :=
  if q.id == idv then ⟨q.id, q.name, q.price, !q.availability⟩ else q

lemma checkThat_eq_nil {ok : Bool} {f m : String} :
    checkThat ok f m = [] ↔ ok = true := by
  cases ok <;> simp [checkThat]

lemma handleInputErrors_reject {errs : List FieldError} (st : DB)
    (next : ApiResponse × DB) (h : errs ≠ []) :
    handleInputErrors errs st next = (ApiResponse.errors errs, st) := by
  have : errs.isEmpty = false := by
    cases errs with
    | nil => exact absurd rfl h
    | cons a l => rfl
  simp [handleInputErrors, this]

lemma handleInputErrors_pass {errs : List FieldError} (st : DB)
    (next : ApiResponse × DB) (h : errs = []) :
    handleInputErrors errs st next = next := by
  subst h; rfl

/-- Claim C2: on every validated route, a non-empty list of failed checks
yields the 400 response carrying exactly that error list, with the stored
table unchanged and the handler never reached; the `errors` envelope always
has status 400. -/
theorem c2_validation_rejects (st : DB) (s : String) (b : Body) :
    (getByIdValidation s ≠ [] →
      routeGetById st s = (ApiResponse.errors (getByIdValidation s), st)) ∧
    (createValidation b ≠ [] →
      routePost st b = (ApiResponse.errors (createValidation b), st)) ∧
    (putValidation s b ≠ [] →
      routePut st s b = (ApiResponse.errors (putValidation s b), st)) ∧
    (patchValidation s ≠ [] →
      routePatch st s = (ApiResponse.errors (patchValidation s), st)) ∧
    (deleteValidation s ≠ [] →
      routeDelete st s = (ApiResponse.errors (deleteValidation s), st)) ∧
    (∀ l : List FieldError, statusOf (ApiResponse.errors l) = 400) :=
  ⟨fun h => handleInputErrors_reject st _ h,
   fun h => handleInputErrors_reject st _ h,
   fun h => handleInputErrors_reject st _ h,
   fun h => handleInputErrors_reject st _ h,
   fun h => handleInputErrors_reject st _ h,
   fun _ => rfl⟩

theorem c2_validation_rejects_witness :
    (routeGetById initDB "abc" = (ApiResponse.errors (getByIdValidation "abc"), initDB)) ∧
    (routePost initDB emptyBody = (ApiResponse.errors (createValidation emptyBody), initDB)) :=
  ⟨(c2_validation_rejects initDB "abc" emptyBody).1 (by decide),
   (c2_validation_rejects initDB "abc" emptyBody).2.1 (by decide)⟩

/-- Claim C3: on the create chain, a body missing both name and price fails
exactly 4 checks; a non-empty name with price 0 fails exactly 1; a
non-empty name with the non-numeric price string "text" fails exactly 2. -/
theorem c3_create_error_counts (b : Body) (nm : Option Value) :
    (b.name = none → b.price = none → (createValidation b).length = 4) ∧
    (notEmptyV nm = true →
      (createValidation ⟨nm, some (Value.num 0), none⟩).length = 1) ∧
    (notEmptyV nm = true →
      (createValidation ⟨nm, some (Value.str "text"), none⟩).length = 2) := by
  refine ⟨fun h1 h2 => ?_, fun h => ?_, fun h => ?_⟩
  · simp only [createValidation, nameChecks, priceChecks]
    rw [h1, h2]
    decide
  · have hn : nameChecks ⟨nm, some (Value.num 0), none⟩ = [] :=
      checkThat_eq_nil.2 h
    simp only [createValidation, hn, List.nil_append]
    show (priceChecks ⟨none, some (Value.num 0), none⟩).length = 1
    decide
  · have hn : nameChecks ⟨nm, some (Value.str "text"), none⟩ = [] :=
      checkThat_eq_nil.2 h
    simp only [createValidation, hn, List.nil_append]
    show (priceChecks ⟨none, some (Value.str "text"), none⟩).length = 2
    decide

theorem c3_create_error_counts_witness :
    (createValidation emptyBody).length = 4 ∧
    (createValidation ⟨some (Value.str "Licuadora"), some (Value.num 0), none⟩).length = 1 ∧
    (createValidation ⟨some (Value.str "Licuadora"), some (Value.str "text"), none⟩).length = 2 :=
  ⟨(c3_create_error_counts emptyBody (some (Value.str "Licuadora"))).1 rfl rfl,
   (c3_create_error_counts emptyBody (some (Value.str "Licuadora"))).2.1 (by decide),
   (c3_create_error_counts emptyBody (some (Value.str "Licuadora"))).2.2 (by decide)⟩

/-- Claim C4: get-by-id with a non-integer path id answers 400 with the
single error `ID invalid`; with an integer id matching no stored row it
answers 404 with `Product not founded`; the table is unchanged either
way. -/
theorem c4_get_by_id_failures (st : DB) (s : String) :
    (strToInt? s = none →
      routeGetById st s = (ApiResponse.errors [⟨"id", "ID invalid"⟩], st)) ∧
    (∀ n : Int, strToInt? s = some n → findById st n.toNat = none →
      routeGetById st s = (ApiResponse.notFound "Product not founded", st)) := by
  constructor
  · intro h
    simp [routeGetById, handleInputErrors, getByIdValidation, idCheck, checkThat, h]
  · intro n hn hf
    simp [routeGetById, handleInputErrors, getByIdValidation, idCheck, checkThat,
      hn, paramId, getProductById, hf]

theorem c4_get_by_id_failures_witness :
    routeGetById initDB "abc" = (ApiResponse.errors [⟨"id", "ID invalid"⟩], initDB) ∧
    routeGetById initDB "2000" = (ApiResponse.notFound "Product not founded", initDB) :=
  ⟨(c4_get_by_id_failures initDB "abc").1 (by decide),
   (c4_get_by_id_failures initDB "2000").2 2000 (by decide) (by decide)⟩

/-- Claim C10: the invalid-id message is not uniform: get-by-id declares
`ID invalid` while full update, patch availability and delete all declare
`Invalid ID`, and the two strings differ. -/
theorem c10_id_message_mismatch (s : String) (b : Body) (h : strToInt? s = none) :
    getByIdValidation s = [⟨"id", "ID invalid"⟩] ∧
    patchValidation s = [⟨"id", "Invalid ID"⟩] ∧
    deleteValidation s = [⟨"id", "Invalid ID"⟩] ∧
    (putValidation s b).head? = some ⟨"id", "Invalid ID"⟩ ∧
    ("ID invalid" : String) ≠ "Invalid ID" := by
  refine ⟨?_, ?_, ?_, ?_, by decide⟩ <;>
    simp [getByIdValidation, patchValidation, deleteValidation, putValidation,
      idCheck, checkThat, h]

lemma toggleIf_id (idv : Nat) (q : Product) : (toggleIf idv q).id = q.id := by
  unfold toggleIf; split <;> rfl

lemma toggleIf_name (idv : Nat) (q : Product) : (toggleIf idv q).name = q.name := by
  unfold toggleIf; split <;> rfl

lemma toggleIf_price (idv : Nat) (q : Product) : (toggleIf idv q).price = q.price := by
  unfold toggleIf; split <;> rfl

lemma toggleIf_toggleIf (idv : Nat) (q : Product) :
    toggleIf idv (toggleIf idv q) = q := by
  cases q with
  | mk i nm pr av =>
    unfold toggleIf
    by_cases h : (Product.mk i nm pr av).id == idv <;>
      simp [h, Bool.not_not]

lemma toggleIf_of_ne (idv : Nat) (q : Product) (h : q.id ≠ idv) :
    toggleIf idv q = q := by
  simp [toggleIf, h]

lemma updateAvailability_found (st : DB) (idv : Nat) (p : Product)
    (h : findById st idv = some p) :
    updateAvailability st idv =
      (ApiResponse.data 200 ⟨p.id, p.name, p.price, !p.availability⟩,
        ⟨st.nextId, st.rows.map (toggleIf idv)⟩) := by
  unfold updateAvailability
  rw [h]
  rfl

lemma find?_map_toggleIf (rows : List Product) (idv : Nat) :
    (rows.map (toggleIf idv)).find? (fun p => p.id == idv) =
      (rows.find? (fun p => p.id == idv)).map (toggleIf idv) := by
  rw [List.find?_map]
  have hc : ((fun p : Product => p.id == idv) ∘ toggleIf idv) =
      (fun p : Product => p.id == idv) := by
    funext q
    simp [Function.comp, toggleIf_id]
  rw [hc]

/-- Claim C5: patching availability on a stored row negates exactly that
row's availability, and a second patch on the same id restores it: the
operation is an involution on the availability field. -/
theorem c5_patch_involution (st : DB) (idv : Nat) (p : Product)
    (h : findById st idv = some p) :
    findById (updateAvailability st idv).2 idv =
      some ⟨p.id, p.name, p.price, !p.availability⟩ ∧
    (updateAvailability (updateAvailability st idv).2 idv).2 = st := by
  have hfind : st.rows.find? (fun q => q.id == idv) = some p := h
  have hpid : p.id = idv := by simpa using List.find?_some hfind
  have hfst : findById (updateAvailability st idv).2 idv =
      some (toggleIf idv p) := by
    rw [updateAvailability_found st idv p h]
    show (st.rows.map (toggleIf idv)).find? (fun q => q.id == idv) = _
    rw [find?_map_toggleIf]
    rw [show st.rows.find? (fun q => q.id == idv) = some p from h]
    rfl
  have htog : toggleIf idv p = ⟨p.id, p.name, p.price, !p.availability⟩ := by
    simp [toggleIf, hpid]
  constructor
  · rw [hfst, htog]
  · have hst1 : (updateAvailability st idv).2 =
        (⟨st.nextId, st.rows.map (toggleIf idv)⟩ : DB) := by
      rw [updateAvailability_found st idv p h]
    have hf1 : findById (⟨st.nextId, st.rows.map (toggleIf idv)⟩ : DB) idv =
        some (toggleIf idv p) := by
      rw [← hst1]; exact hfst
    rw [hst1, updateAvailability_found _ idv (toggleIf idv p) hf1]
    show DB.mk st.nextId ((st.rows.map (toggleIf idv)).map (toggleIf idv)) = st
    rw [List.map_map]
    have hmap : st.rows.map (toggleIf idv ∘ toggleIf idv) = st.rows.map id :=
      List.map_congr_left (fun a _ => toggleIf_toggleIf idv a)
    rw [hmap, List.map_id]

theorem c5_patch_involution_witness :
    findById (updateAvailability oneRowDB 1).2 1 =
      some ⟨1, "Licuadora", 300, !true⟩ ∧
    (updateAvailability (updateAvailability oneRowDB 1).2 1).2 = oneRowDB :=
  c5_patch_involution oneRowDB 1 ⟨1, "Licuadora", 300, true⟩ (by decide)

theorem c10_id_message_mismatch_witness :
    getByIdValidation "abc" = [⟨"id", "ID invalid"⟩] ∧
    patchValidation "abc" = [⟨"id", "Invalid ID"⟩] ∧
    deleteValidation "abc" = [⟨"id", "Invalid ID"⟩] ∧
    (putValidation "abc" emptyBody).head? = some ⟨"id", "Invalid ID"⟩ ∧
    ("ID invalid" : String) ≠ "Invalid ID" :=
  c10_id_message_mismatch "abc" emptyBody (by decide)

/-- Claim C6: patching availability changes at most the availability field
of the matching row: the id counter and the row count are unchanged, every
row keeps its position, id, name and price, and a row whose id differs from
the patched id is entirely unchanged. -/
theorem c6_patch_frame (st : DB) (idv : Nat) :
    (updateAvailability st idv).2.nextId = st.nextId ∧
    (updateAvailability st idv).2.rows.length = st.rows.length ∧
    ∀ i : Nat, ∀ q : Product, st.rows[i]? = some q →
      ∃ q2, (updateAvailability st idv).2.rows[i]? = some q2 ∧
        q2.id = q.id ∧ q2.name = q.name ∧ q2.price = q.price ∧
        (q.id ≠ idv → q2 = q) := by
  cases hf : findById st idv with
  | none =>
    have hst : (updateAvailability st idv).2 = st := by
      unfold updateAvailability
      rw [hf]
    rw [hst]
    exact ⟨rfl, rfl, fun i q hq => ⟨q, hq, rfl, rfl, rfl, fun _ => rfl⟩⟩
  | some p =>
    have hst : (updateAvailability st idv).2 =
        (⟨st.nextId, st.rows.map (toggleIf idv)⟩ : DB) := by
      rw [updateAvailability_found st idv p hf]
    rw [hst]
    refine ⟨rfl, List.length_map st.rows (toggleIf idv), fun i q hq => ?_⟩
    refine ⟨toggleIf idv q, ?_, toggleIf_id idv q, toggleIf_name idv q,
      toggleIf_price idv q, toggleIf_of_ne idv q⟩
    show (st.rows.map (toggleIf idv))[i]? = some (toggleIf idv q)
    rw [List.getElem?_map, hq]
    rfl

theorem c6_patch_frame_witness :
    ∃ q2, (updateAvailability oneRowDB 1).2.rows[0]? = some q2 ∧
      q2.id = row1.id ∧ q2.name = row1.name ∧ q2.price = row1.price ∧
      (row1.id ≠ 1 → q2 = row1) :=
  (c6_patch_frame oneRowDB 1).2.2 0 row1 (by decide)

/-- Claim C7: the full-update route runs its body validation before the
handler, so an invalid body answers 400 with the error list and leaves the
table unchanged — never 404 — even when no row with the given id exists. -/
theorem c7_put_validation_precedence (st : DB) (s : String) (b : Body)
    (h : putValidation s b ≠ []) :
    routePut st s b = (ApiResponse.errors (putValidation s b), st) ∧
    statusOf (routePut st s b).1 = 400 ∧
    ∀ m : String, (routePut st s b).1 ≠ ApiResponse.notFound m := by
  have hroute : routePut st s b = (ApiResponse.errors (putValidation s b), st) :=
    handleInputErrors_reject st (updateProduct st (paramId s) b) h
  refine ⟨hroute, ?_, ?_⟩
  · rw [hroute]
    rfl
  · intro m
    rw [hroute]
    simp

theorem c7_put_validation_precedence_witness :
    routePut initDB "2000" emptyBody =
      (ApiResponse.errors (putValidation "2000" emptyBody), initDB) ∧
    statusOf (routePut initDB "2000" emptyBody).1 = 400 ∧
    ∀ m : String, (routePut initDB "2000" emptyBody).1 ≠ ApiResponse.notFound m :=
  c7_put_validation_precedence initDB "2000" emptyBody (by decide)

/-- Claim C8: creating with a valid body answers 201 with a `data` object
holding the newly stored row, whose availability defaults to true and which
is appended to the table. -/
theorem c8_create_success (st : DB) (b : Body) (h : createValidation b = []) :
    routePost st b =
      (ApiResponse.data 201 ⟨st.nextId, jsToString b.name, parsedPrice b.price, true⟩,
        ⟨st.nextId + 1,
          st.rows ++ [⟨st.nextId, jsToString b.name, parsedPrice b.price, true⟩]⟩) ∧
    statusOf (routePost st b).1 = 201 ∧
    (⟨st.nextId, jsToString b.name, parsedPrice b.price, true⟩ : Product).availability = true ∧
    (⟨st.nextId, jsToString b.name, parsedPrice b.price, true⟩ : Product) ∈
      (routePost st b).2.rows := by
  have hroute : routePost st b = createProduct st b :=
    handleInputErrors_pass st (createProduct st b) h
  refine ⟨?_, ?_, rfl, ?_⟩
  · rw [hroute]
    rfl
  · rw [hroute]
    rfl
  · rw [hroute]
    show _ ∈ st.rows ++ [(⟨st.nextId, jsToString b.name, parsedPrice b.price, true⟩ : Product)]
    exact List.mem_append.2 (Or.inr (List.mem_singleton.2 rfl))

theorem c8_create_success_witness :
    routePost initDB mouseBody =
      (ApiResponse.data 201
          ⟨initDB.nextId, jsToString mouseBody.name, parsedPrice mouseBody.price, true⟩,
        ⟨initDB.nextId + 1,
          initDB.rows ++
            [⟨initDB.nextId, jsToString mouseBody.name, parsedPrice mouseBody.price, true⟩]⟩) ∧
    statusOf (routePost initDB mouseBody).1 = 201 ∧
    (⟨initDB.nextId, jsToString mouseBody.name, parsedPrice mouseBody.price, true⟩ : Product).availability = true ∧
    (⟨initDB.nextId, jsToString mouseBody.name, parsedPrice mouseBody.price, true⟩ : Product) ∈
      (routePost initDB mouseBody).2.rows :=
  c8_create_success initDB mouseBody (by decide)

/-- Claim C9: deleting an id that matches a stored row answers 200 with
`data = "Product deleted"` and removes the row, so a subsequent get-by-id
on the same id answers 404. -/
theorem c9_delete_then_get (st : DB) (s : String) (n : Int) (p : Product)
    (hs : strToInt? s = some n) (hf : findById st n.toNat = some p) :
    routeDelete st s =
      (ApiResponse.dataMsg "Product deleted",
        ⟨st.nextId, st.rows.filter (fun q => q.id != n.toNat)⟩) ∧
    statusOf (routeDelete st s).1 = 200 ∧
    (routeGetById (routeDelete st s).2 s).1 =
      ApiResponse.notFound "Product not founded" := by
  have hpid : paramId s = n.toNat := by simp [paramId, hs]
  have hval : deleteValidation s = [] := by
    simp [deleteValidation, idCheck, checkThat, hs]
  have hroute : routeDelete st s = deleteProduct st (paramId s) :=
    handleInputErrors_pass st _ hval
  have hdel : deleteProduct st (paramId s) =
      (ApiResponse.dataMsg "Product deleted",
        ⟨st.nextId, st.rows.filter (fun q => q.id != n.toNat)⟩) := by
    rw [hpid]
    unfold deleteProduct
    rw [hf]
  refine ⟨hroute.trans hdel, ?_, ?_⟩
  · rw [hroute, hdel]
    rfl
  · have hstate : (routeDelete st s).2 =
        (⟨st.nextId, st.rows.filter (fun q => q.id != n.toNat)⟩ : DB) := by
      rw [hroute, hdel]
    rw [hstate]
    have hval2 : getByIdValidation s = [] := by
      simp [getByIdValidation, idCheck, checkThat, hs]
    have hroute2 :
        routeGetById (⟨st.nextId, st.rows.filter (fun q => q.id != n.toNat)⟩ : DB) s =
          getProductById (⟨st.nextId, st.rows.filter (fun q => q.id != n.toNat)⟩ : DB)
            (paramId s) :=
      handleInputErrors_pass _ _ hval2
    rw [hroute2, hpid]
    have hnone : findById
        (⟨st.nextId, st.rows.filter (fun q => q.id != n.toNat)⟩ : DB) n.toNat = none := by
      apply List.find?_eq_none.2
      intro x hx
      have hmem := List.mem_filter.1 hx
      simpa using hmem.2
    unfold getProductById
    rw [hnone]

theorem c9_delete_then_get_witness :
    routeDelete oneRowDB "1" =
      (ApiResponse.dataMsg "Product deleted",
        ⟨oneRowDB.nextId, oneRowDB.rows.filter (fun q => q.id != (1 : Int).toNat)⟩) ∧
    statusOf (routeDelete oneRowDB "1").1 = 200 ∧
    (routeGetById (routeDelete oneRowDB "1").2 "1").1 =
      ApiResponse.notFound "Product not founded" :=
  c9_delete_then_get oneRowDB "1" 1 row1 (by decide) (by decide)

lemma notEmpty_ne (v : Option Value) (h : notEmptyV v = true) :
    jsToString v ≠ "" := by
  simpa [notEmptyV] using h

lemma price_pos (v : Option Value) (h1 : isNumericV v = true)
    (h2 : jsGtZero v = true) : 0 < parsedPrice v := by
  cases v with
  | none => simp [isNumericV, parseNum] at h1
  | some w =>
    cases w with
    | num n =>
      simpa [jsGtZero, parsedPrice, parseNum] using h2
    | str s =>
      cases hx : strToInt? s with
      | none => simp [isNumericV, parseNum, hx] at h1
      | some n =>
        have h2' : decide (0 < n) = true := by
          simpa [jsGtZero, hx] using h2
        simpa [parsedPrice, parseNum, hx] using of_decide_eq_true h2'
    | bool bb => simp [isNumericV, parseNum] at h1

lemma createValidation_ok (b : Body) (h : createValidation b = []) :
    jsToString b.name ≠ "" ∧ 0 < parsedPrice b.price := by
  simp only [createValidation, nameChecks, priceChecks, List.append_eq_nil,
    checkThat_eq_nil] at h
  obtain ⟨hn, ⟨h1, _⟩, h3⟩ := h
  exact ⟨notEmpty_ne b.name hn, price_pos b.price h1 h3⟩

lemma putValidation_ok (s : String) (b : Body) (h : putValidation s b = []) :
    jsToString b.name ≠ "" ∧ 0 < parsedPrice b.price := by
  simp only [putValidation, idCheck, nameChecks, priceChecks,
    List.append_eq_nil, checkThat_eq_nil] at h
  obtain ⟨⟨⟨_, hn⟩, ⟨h1, _⟩, h3⟩, _⟩ := h
  exact ⟨notEmpty_ne b.name hn, price_pos b.price h1 h3⟩

lemma ProductOk_toggleIf (idv : Nat) (q : Product) :
    ProductOk (toggleIf idv q) ↔ ProductOk q := by
  unfold ProductOk
  rw [toggleIf_price, toggleIf_name]

lemma Inv_routePost (st : DB) (b : Body) (h : Inv st) :
    Inv (routePost st b).2 := by
  by_cases he : createValidation b = []
  · have hroute : routePost st b = createProduct st b :=
      handleInputErrors_pass st _ he
    rw [hroute]
    intro q hq
    rcases List.mem_append.1 hq with hl | hr
    · exact h q hl
    · have hq2 : q = ⟨st.nextId, jsToString b.name, parsedPrice b.price, true⟩ :=
        List.mem_singleton.1 hr
      subst hq2
      obtain ⟨hn, hp⟩ := createValidation_ok b he
      exact ⟨hp, hn⟩
  · have hroute : routePost st b = (ApiResponse.errors (createValidation b), st) :=
      handleInputErrors_reject st _ he
    rw [hroute]
    exact h

lemma Inv_routePut (st : DB) (s : String) (b : Body) (h : Inv st) :
    Inv (routePut st s b).2 := by
  by_cases he : putValidation s b = []
  · have hroute : routePut st s b = updateProduct st (paramId s) b :=
      handleInputErrors_pass st _ he
    rw [hroute]
    unfold updateProduct
    cases hf : findById st (paramId s) with
    | none => exact h
    | some p =>
      intro q hq
      obtain ⟨q0, hq0, hq0eq⟩ := List.mem_map.1 hq
      obtain ⟨hn, hp⟩ := putValidation_ok s b he
      by_cases hid : (q0.id == paramId s) = true
      · rw [← hq0eq]
        simp only [hid, if_true]
        exact ⟨hp, hn⟩
      · rw [← hq0eq]
        simp only [hid, if_false]
        exact h q0 hq0
  · have hroute : routePut st s b = (ApiResponse.errors (putValidation s b), st) :=
      handleInputErrors_reject st _ he
    rw [hroute]
    exact h

lemma Inv_routePatch (st : DB) (s : String) (h : Inv st) :
    Inv (routePatch st s).2 := by
  by_cases he : patchValidation s = []
  · have hroute : routePatch st s = updateAvailability st (paramId s) :=
      handleInputErrors_pass st _ he
    rw [hroute]
    cases hf : findById st (paramId s) with
    | none =>
      have hst : (updateAvailability st (paramId s)).2 = st := by
        unfold updateAvailability
        rw [hf]
      rw [hst]
      exact h
    | some p =>
      have hst : (updateAvailability st (paramId s)).2 =
          (⟨st.nextId, st.rows.map (toggleIf (paramId s))⟩ : DB) := by
        rw [updateAvailability_found st (paramId s) p hf]
      rw [hst]
      intro q hq
      obtain ⟨q0, hq0, hq0eq⟩ := List.mem_map.1 hq
      rw [← hq0eq]
      exact (ProductOk_toggleIf (paramId s) q0).2 (h q0 hq0)
  · have hroute : routePatch st s = (ApiResponse.errors (patchValidation s), st) :=
      handleInputErrors_reject st _ he
    rw [hroute]
    exact h

lemma Inv_routeDelete (st : DB) (s : String) (h : Inv st) :
    Inv (routeDelete st s).2 := by
  by_cases he : deleteValidation s = []
  · have hroute : routeDelete st s = deleteProduct st (paramId s) :=
      handleInputErrors_pass st _ he
    rw [hroute]
    unfold deleteProduct
    cases hf : findById st (paramId s) with
    | none => exact h
    | some p =>
      intro q hq
      exact h q (List.mem_filter.1 hq).1
  · have hroute : routeDelete st s = (ApiResponse.errors (deleteValidation s), st) :=
      handleInputErrors_reject st _ he
    rw [hroute]
    exact h

/-- Claim C1: in every database state reachable from the empty store
through the mutating operations (create, full update, patch availability,
delete) with arbitrary inputs, every stored row has a strictly positive
price and a non-empty name. -/
theorem c1_invariant (st : DB) (h : Reachable st) : Inv st := by
  induction h with
  | init =>
    intro p hp
    simp [initDB] at hp
  | post st b _ ih => exact Inv_routePost st b ih
  | put st s b _ ih => exact Inv_routePut st s b ih
  | patch st s _ ih => exact Inv_routePatch st s ih
  | del st s _ ih => exact Inv_routeDelete st s ih

theorem c1_invariant_witness : Inv (routePost initDB mouseBody).2 :=
  c1_invariant (routePost initDB mouseBody).2
    (Reachable.post initDB mouseBody Reachable.init)

end ProductApi
